import Mathlib

/-!
Verification of the GroundCrew fact-checking pipeline (groundcrew/agents.py,
groundcrew/workflow.py, groundcrew/models.py, main.py,
evals/test_nei_improvements.py).

The pipeline's data model (models.py) is embedded as Lean structures; the
language-model and web-search capabilities are embedded as oracle functions
returning `Except String _` (a raised exception becomes `.error`).  The
prompts built by the agents are fixed texts interpolating the claim text and
the formatted evidence text, so an oracle is modelled as a function of those
interpolated data.  Floating-point confidences are modelled as rationals:
the code only stores them and compares them against decimal thresholds.
-/

namespace GroundCrew

/-- FEVER-compliant truth status, the `Literal["SUPPORTS", "REFUTES",
"NOT ENOUGH INFO"]` of models.py. -/
inductive Status where
  | SUPPORTS
  | REFUTES
  | NOT_ENOUGH_INFO
deriving DecidableEq, Repr

/-- The Python string value carried by a `Status` literal. -/
def Status.str : Status → String
  | .SUPPORTS => "SUPPORTS"
  | .REFUTES => "REFUTES"
  | .NOT_ENOUGH_INFO => "NOT ENOUGH INFO"

/-- models.py `Claim`: a single factual claim extracted from text. -/
structure Claim where
  text : String
  priority : Int := 5
deriving DecidableEq, Repr

/-- models.py `ClaimsList`: list of claims extracted from text. -/
structure ClaimsList where
  claims : List Claim
deriving DecidableEq, Repr

/-- models.py `SearchQueries`: search queries for evidence retrieval. -/
structure SearchQueries where
  queries : List String
deriving DecidableEq, Repr

/-- models.py `Evidence`: evidence retrieved for a claim. -/
structure Evidence where
  source : String
  snippet : String
  relevance_score : ℚ := 0
deriving DecidableEq, Repr

/-- models.py `VerdictOutput`: verification verdict output from the LLM
(without evidence). -/
structure VerdictOutput where
  status : Status
  confidence : ℚ
  justification : String
deriving DecidableEq, Repr

/-- Modelled from the spec: the `CompletenessCheck` record
`(is_complete : bool, completeness_score : float, missing_elements : string)`
named `EvidenceCompletenessCheck` in agents.py.  The class is imported from
groundcrew.models but is defined nowhere in the repository (see the C9
theorem); its shape is taken from the spec together with the three field
accesses in `VerificationAgent.verify_claims`. -/
structure EvidenceCompletenessCheck where
  is_complete : Bool
  completeness_score : ℚ
  missing_elements : String
deriving DecidableEq, Repr

/-- models.py `Verdict`: verification verdict for a claim. -/
structure Verdict where
  claim : String
  status : Status
  confidence : ℚ
  justification : String
  evidence_used : List Evidence := []
deriving DecidableEq, Repr

/-- models.py `FactCheckState`: state object that flows through the
fact-checking pipeline.  The Python `dict[str, List[Evidence]]` evidence map
is embedded as an association list with distinct keys left implicit; lookup
is `lookupEvidence`. -/
structure FactCheckState where
  input_text : String
  claims : List Claim := []
  evidence_map : List (String × List Evidence) := []
  verdicts : List Verdict := []
  final_report : String := ""
  error : String := ""
deriving Repr

/-- Python `state.evidence_map.get(claim.text, [])`: dictionary lookup with
default empty list. -/
def lookupEvidence (m : List (String × List Evidence)) (k : String) : List Evidence :=
  match m.find? (fun p => p.1 == k) with
  | some p => p.2
  | none => []

/-- Python `sep.join(parts)`. -/
def joinSep (sep : String) : List String → String
  | [] => ""
  | [a] => a
  | a :: b :: rest => a ++ sep ++ joinSep sep (b :: rest)

/-- The per-evidence block `f"Source: {ev.source}\nSnippet: {ev.snippet}"`
of agents.py line 141. -/
def evidenceEntry (ev : Evidence) : String :=
  "Source: " ++ ev.source ++ "\nSnippet: " ++ ev.snippet

/-- agents.py lines 140-143: evidence formatted for the LLM, limited to the
top 5 evidence pieces and joined by blank lines. -/
def evidenceText (evidence_list : List Evidence) : String :=
  joinSep "\n\n" ((evidence_list.take 5).map evidenceEntry)

/-- Round a rational to the nearest integer, `⌊q + 1/2⌋` computed on the
numerator and denominator. -/
def ratRound (q : ℚ) : ℤ :=
  Int.fdiv (2 * q.num + (q.den : ℤ)) (2 * (q.den : ℤ))

/-- Two-decimal rendering of a rational, the Python format spec `:.2f`
applied to a confidence. -/
def fmt2 (q : ℚ) : String :=
  let n : ℤ := ratRound (q * 100)
  let sign := if n < 0 then "-" else ""
  let m := n.natAbs
  sign ++ toString (m / 100) ++ "." ++ (if m % 100 < 10 then "0" else "") ++ toString (m % 100)

/-- Python `str()` of a float threshold.  The thresholds appearing in this
code have at most two decimals, for which the shortest-decimal printing of
a float is the two-decimal rendering with one trailing zero stripped. -/
def floatStr (q : ℚ) : String :=
  let s := fmt2 q
  if s.data.getLast? = some ('0' : Char) then ⟨s.data.dropLast⟩ else s

/-- agents.py `VerificationAgent.__init__`: the agent holds the configured
confidence threshold (default 0.7). -/
structure VerificationAgent where
  confidence_threshold : ℚ := 7/10
deriving Repr

/-- agents.py lines 199-269, STAGE 2: invoke the verdict-judgment capability,
apply the confidence-threshold post-processing, and fall back to a
NOT ENOUGH INFO verdict with confidence 0.0 on an exception. -/
def stage2Verdict (agent : VerificationAgent)
    (verdict_llm : String → String → Except String VerdictOutput)
    (claim_text e_text : String) (evidence_list : List Evidence) : Verdict :=
  match verdict_llm claim_text e_text with
  | .ok verdict_output =>
    if verdict_output.status ≠ .NOT_ENOUGH_INFO ∧
        verdict_output.confidence < agent.confidence_threshold then
      { claim := claim_text
        status := .NOT_ENOUGH_INFO
        confidence := verdict_output.confidence
        justification := "Low confidence (" ++ fmt2 verdict_output.confidence ++ " < "
          ++ floatStr agent.confidence_threshold ++ "). Original: "
          ++ verdict_output.status.str ++ ". " ++ verdict_output.justification
        evidence_used := evidence_list.take 3 }
    else
      { claim := claim_text
        status := verdict_output.status
        confidence := verdict_output.confidence
        justification := verdict_output.justification
        evidence_used := evidence_list.take 3 }
  | .error e =>
    { claim := claim_text
      status := .NOT_ENOUGH_INFO
      confidence := 0
      justification := "Error processing verdict: " ++ e
      evidence_used := evidence_list.take 3 }

/-- agents.py lines 136-269: the body of the `for claim in state.claims`
loop of `VerificationAgent.verify_claims`, producing the one verdict of one
claim.  Stage 0 short-circuits on empty formatted evidence; Stage 1 invokes
the completeness capability and short-circuits when the gate fails, falling
through to Stage 2 when the invocation raises (fail open, the `except`
branch of lines 194-196); Stage 2 is `stage2Verdict`.  The completeness
gate compares against the literal 0.7 of line 184, not the configured
threshold. -/
def verifyClaim (agent : VerificationAgent)
    (completeness_llm : String → String → Except String EvidenceCompletenessCheck)
    (verdict_llm : String → String → Except String VerdictOutput)
    (evidence_map : List (String × List Evidence)) (claim : Claim) : Verdict :=
  let evidence_list := lookupEvidence evidence_map claim.text
  let e_text := evidenceText evidence_list
  if e_text = "" then
    { claim := claim.text
      status := .NOT_ENOUGH_INFO
      confidence := 1
      justification := "No evidence was found for this claim."
      evidence_used := [] }
  else
    match completeness_llm claim.text e_text with
    | .ok completeness_check =>
      if ¬ completeness_check.is_complete ∨ completeness_check.completeness_score < 7/10 then
        { claim := claim.text
          status := .NOT_ENOUGH_INFO
          confidence := completeness_check.completeness_score
          justification := "Evidence is incomplete. Missing: "
            ++ completeness_check.missing_elements
          evidence_used := evidence_list.take 3 }
      else
        stage2Verdict agent verdict_llm claim.text e_text evidence_list
    | .error _ =>
      stage2Verdict agent verdict_llm claim.text e_text evidence_list

/-- agents.py lines 132-272: `VerificationAgent.verify_claims` appends
exactly one verdict per claim, in claim order, and stores the list in the
state. -/
def VerificationAgent.verify_claims (agent : VerificationAgent)
    (completeness_llm : String → String → Except String EvidenceCompletenessCheck)
    (verdict_llm : String → String → Except String VerdictOutput)
    (state : FactCheckState) : FactCheckState :=
  { state with
    verdicts := state.claims.map
      (verifyClaim agent completeness_llm verdict_llm state.evidence_map) }

/-- Stable insertion of a claim into a list sorted by priority descending:
the semantics of where Python `sorted(key=priority, reverse=True)` places an
element relative to the elements after it (a stable sort keeps an earlier
element before every equal-priority later one, and `reverse=True` inverts
the key comparison without reversing ties). -/
def insertClaimDesc (a : Claim) : List Claim → List Claim
  | [] => [a]
  | b :: bs => if b.priority ≤ a.priority then a :: b :: bs else b :: insertClaimDesc a bs

/-- agents.py line 49 `sorted(result.claims, key=lambda x: x.priority,
reverse=True)`: stable sort by priority descending. -/
def sortClaimsDesc : List Claim → List Claim
  | [] => []
  | a :: as => insertClaimDesc a (sortClaimsDesc as)

/-- agents.py lines 27-55: `ClaimExtractionAgent.extract_claims`.  The
structured-output LLM is an oracle from the input text interpolated into
the fixed prompt; on success the extracted claims are stored sorted by
priority descending, on failure the error is recorded and the whole input
becomes a single fallback claim at priority 5. -/
def ClaimExtractionAgent.extract_claims
    (structured_llm : String → Except String ClaimsList)
    (state : FactCheckState) : FactCheckState :=
  match structured_llm state.input_text with
  | .ok result => { state with claims := sortClaimsDesc result.claims }
  | .error e =>
    { state with
      error := "Claim extraction error: " ++ e
      claims := [{ text := state.input_text, priority := 5 }] }

/-- One entry of the `results` list of a Tavily search response.  The code
reads the fields with `.get` and a default, so each field is optional. -/
structure SearchResult where
  url : Option String
  content : Option String
  score : Option ℚ
deriving DecidableEq, Repr

/-- agents.py lines 106-110: one search result becomes one `Evidence`, with
`source = result.get('url', '')`, the snippet
`result.get('content', '')[:500]` truncated to 500 characters, and
`relevance_score = result.get('score', 0.5)`. -/
def resultToEvidence (result : SearchResult) : Evidence :=
  { source := result.url.getD ""
    snippet := (result.content.getD "").take 500
    relevance_score := result.score.getD (1/2) }

/-- agents.py lines 90-114: the evidence collected for one claim from its
generated queries.  At most 2 queries are issued; the search oracle returns
the `results` list of the provider response or raises; a failing query is
skipped and contributes nothing. -/
def searchEvidenceForClaim (search : String → Except String (List SearchResult))
    (queries : List String) : List Evidence :=
  ((queries.take 2).map (fun query =>
    match search query with
    | .ok search_results => search_results.map resultToEvidence
    | .error _ => [])).flatten

/-- workflow.py lines 194-199: the `status_emoji` dictionary lookup
`{"supported": check, "refuted": cross, "mixed": warning,
"not_enough_info": question}.get(verdict.status, bullet)` of
`_save_report_to_markdown`. -/
def statusEmoji (status : String) : String :=
  if status = "supported" then "✅"
  else if status = "refuted" then "❌"
  else if status = "mixed" then "⚠️"
  else if status = "not_enough_info" then "❓"
  else "•"

/-- The class names bound by `class ... (BaseModel)` statements in
groundcrew/models.py (its module namespace after execution, besides the
imported helper names). -/
def modelsDefinedClasses : List String :=
  ["Claim", "ClaimsList", "SearchQueries", "Evidence", "VerdictOutput",
   "Verdict", "FactCheckState", "FactCheckReport"]

/-- The names agents.py lines 7-16 imports from groundcrew.models. -/
def agentsModelsImportList : List String :=
  ["Claim", "ClaimsList", "Evidence", "SearchQueries", "Verdict",
   "VerdictOutput", "EvidenceCompletenessCheck", "FactCheckState"]

/-- Python `from M import a, b, ...` semantics: the import succeeds exactly
when every imported name is bound in module M; otherwise it raises
ImportError at the first missing name. -/
def fromImport (exports imports : List String) : Except String Unit :=
  match imports.find? (fun n => ¬ exports.contains n) with
  | some n => .error ("ImportError: cannot import name " ++ n)
  | none => .ok ()

/-- The parameter names of `run_fact_check` (workflow.py lines 108-114).
The function declares no `**kwargs`. -/
def runFactCheckParams : List String :=
  ["input_text", "openai_api_key", "tavily_api_key", "model_name", "output_file"]

/-- The keyword-argument names of the `run_fact_check(...)` call in
main.py lines 107-114 (the CLI path, `--wikipedia-only` included: the
`search_domain` keyword is passed unconditionally). -/
def mainRunFactCheckKwargs : List String :=
  ["input_text", "openai_api_key", "tavily_api_key", "model_name",
   "output_file", "search_domain"]

/-- The keyword-argument names of the `run_fact_check(...)` call in
evals/test_nei_improvements.py lines 56-62 (the NEI evaluation harness). -/
def evalRunFactCheckKwargs : List String :=
  ["input_text", "openai_api_key", "tavily_api_key", "model_name", "search_domain"]

/-- Python call semantics for a function without `**kwargs`: a keyword
argument whose name matches no parameter raises TypeError. -/
def kwargsCallRaisesTypeError (params kwargs : List String) : Bool :=
  kwargs.any (fun k => ¬ params.contains k)

/-- workflow.py line 52: `create_fact_check_workflow` constructs
`EvidenceSearchAgent(llm, tavily_client)` without the third argument, so
the agent's `search_domain` takes its default `None`. -/
def createWorkflowSearchAgentDomain : Option String := none

/-! Helper lemmas. -/

lemma le_length_joinSep (sep x : String) (xs : List String) :
    x.length ≤ (joinSep sep (x :: xs)).length := by
  cases xs with
  | nil => simp [joinSep]
  | cons b bs =>
    simp [joinSep, String.length_append]
    omega

lemma evidenceText_nil : evidenceText [] = "" := rfl

lemma evidenceText_ne_empty {el : List Evidence} (h : el ≠ []) :
    evidenceText el ≠ "" := by
  match el, h with
  | e :: rest, _ =>
    intro hcontra
    have h1 : (evidenceEntry e).length ≤ (evidenceText (e :: rest)).length := by
      simpa [evidenceText] using
        le_length_joinSep "\n\n" (evidenceEntry e) ((rest.take 4).map evidenceEntry)
    have h2 : 8 ≤ (evidenceEntry e).length := by
      simp [evidenceEntry, String.length_append]
      have hs : ("Source: " : String).length = 8 := rfl
      omega
    rw [hcontra] at h1
    have h0 : ("" : String).length = 0 := rfl
    omega

/-- The Stage-0 verdict of agents.py lines 147-153. -/
lemma verifyClaim_of_no_evidence (agent : VerificationAgent)
    (completeness_llm : String → String → Except String EvidenceCompletenessCheck)
    (verdict_llm : String → String → Except String VerdictOutput)
    (evidence_map : List (String × List Evidence)) (claim : Claim)
    (h : lookupEvidence evidence_map claim.text = []) :
    verifyClaim agent completeness_llm verdict_llm evidence_map claim =
      { claim := claim.text
        status := .NOT_ENOUGH_INFO
        confidence := 1
        justification := "No evidence was found for this claim."
        evidence_used := [] } := by
  simp [verifyClaim, h, evidenceText_nil]

lemma perm_insertClaimDesc (a : Claim) (l : List Claim) :
    List.Perm (insertClaimDesc a l) (a :: l) := by
  induction l with
  | nil => exact List.Perm.refl _
  | cons b bs ih =>
    simp only [insertClaimDesc]
    split
    · exact List.Perm.refl _
    · exact (ih.cons b).trans (List.Perm.swap a b bs)

lemma pairwise_insertClaimDesc (a : Claim) {l : List Claim}
    (h : l.Pairwise (fun x y => y.priority ≤ x.priority)) :
    (insertClaimDesc a l).Pairwise (fun x y => y.priority ≤ x.priority) := by
  induction l with
  | nil => simp [insertClaimDesc]
  | cons b bs ih =>
    rcases List.pairwise_cons.mp h with ⟨hb, hbs⟩
    simp only [insertClaimDesc]
    split
    case isTrue hba =>
      refine List.pairwise_cons.mpr ⟨?_, h⟩
      intro x hx
      rcases List.mem_cons.mp hx with rfl | hx
      · exact hba
      · exact le_trans (hb x hx) hba
    case isFalse hba =>
      refine List.pairwise_cons.mpr ⟨?_, ih hbs⟩
      intro x hx
      rcases List.mem_cons.mp ((perm_insertClaimDesc a bs).mem_iff.mp hx) with rfl | hx
      · exact le_of_lt (not_le.mp hba)
      · exact hb x hx

lemma filter_insertClaimDesc (p : Int) (a : Claim) (l : List Claim) :
    (insertClaimDesc a l).filter (fun c => c.priority == p)
      = if a.priority = p
        then a :: l.filter (fun c => c.priority == p)
        else l.filter (fun c => c.priority == p) := by
  induction l with
  | nil =>
    by_cases h : a.priority = p <;> simp [insertClaimDesc, List.filter_cons, h]
  | cons b bs ih =>
    simp only [insertClaimDesc]
    split
    case isTrue hba =>
      by_cases h : a.priority = p <;> simp [List.filter_cons, h]
    case isFalse hba =>
      by_cases ha : a.priority = p
      · have hb : ¬ b.priority = p := by
          intro hbp
          exact hba (le_of_eq (hbp.trans ha.symm))
        simp [List.filter_cons, ha, hb, ih]
      · by_cases hb : b.priority = p <;> simp [List.filter_cons, ha, hb, ih]

lemma sortClaimsDesc_perm (l : List Claim) : List.Perm (sortClaimsDesc l) l := by
  induction l with
  | nil => exact List.Perm.refl _
  | cons a as ih =>
    exact (perm_insertClaimDesc a (sortClaimsDesc as)).trans (ih.cons a)

lemma sortClaimsDesc_sorted (l : List Claim) :
    (sortClaimsDesc l).Pairwise (fun x y => y.priority ≤ x.priority) := by
  induction l with
  | nil => simp [sortClaimsDesc]
  | cons a as ih => exact pairwise_insertClaimDesc a ih

lemma sortClaimsDesc_stable (l : List Claim) (p : Int) :
    (sortClaimsDesc l).filter (fun c => c.priority == p)
      = l.filter (fun c => c.priority == p) := by
  induction l with
  | nil => rfl
  | cons a as ih =>
    rw [sortClaimsDesc, filter_insertClaimDesc, ih]
    by_cases h : a.priority = p <;> simp [List.filter_cons, h]

/-! Rational-number facts used by the concrete witnesses. -/

lemma half_lt_seven_tenths : (1/2 : ℚ) < 7/10 := by norm_num

lemma one_not_lt_seven_tenths : ¬ ((1 : ℚ) < 7/10) := by norm_num

/-! Theorems for the claims. -/

/-- C1: for every list of claims and every evidence map, `verify_claims`
produces exactly one verdict per claim, in claim order, so
`len(verdicts) == len(claims)` holds at completion regardless of which
branch each claim takes. -/
theorem C1_one_verdict_per_claim
    (agent : VerificationAgent)
    (completeness_llm : String → String → Except String EvidenceCompletenessCheck)
    (verdict_llm : String → String → Except String VerdictOutput)
    (state : FactCheckState) :
    (VerificationAgent.verify_claims agent completeness_llm verdict_llm state).verdicts.length
      = state.claims.length
    ∧ (VerificationAgent.verify_claims agent completeness_llm verdict_llm state).verdicts
      = state.claims.map
          (verifyClaim agent completeness_llm verdict_llm state.evidence_map) := by
  constructor
  · simp [VerificationAgent.verify_claims]
  · rfl

/-- C2: a claim whose evidence collection is empty (key missing from the
evidence map or mapped to an empty list) receives the verdict
NOT ENOUGH INFO with confidence 1.0, justification
"No evidence was found for this claim." and empty evidence_used, and the
result does not depend on either model capability (no model call is made
for that claim). -/
theorem C2_empty_evidence_verdict
    (agent : VerificationAgent)
    (completeness_llm : String → String → Except String EvidenceCompletenessCheck)
    (verdict_llm : String → String → Except String VerdictOutput)
    (evidence_map : List (String × List Evidence)) (claim : Claim)
    (h : lookupEvidence evidence_map claim.text = []) :
    verifyClaim agent completeness_llm verdict_llm evidence_map claim =
      { claim := claim.text
        status := .NOT_ENOUGH_INFO
        confidence := 1
        justification := "No evidence was found for this claim."
        evidence_used := [] }
    ∧ ∀ (completeness_llm2 : String → String → Except String EvidenceCompletenessCheck)
        (verdict_llm2 : String → String → Except String VerdictOutput),
        verifyClaim agent completeness_llm2 verdict_llm2 evidence_map claim
          = verifyClaim agent completeness_llm verdict_llm evidence_map claim := by
  refine ⟨verifyClaim_of_no_evidence _ _ _ _ _ h, ?_⟩
  intro c2 v2
  rw [verifyClaim_of_no_evidence _ _ _ _ _ h, verifyClaim_of_no_evidence _ _ _ _ _ h]

theorem C2_empty_evidence_verdict_witness :
    lookupEvidence [] "c" = []
    ∧ verifyClaim { confidence_threshold := 7/10 }
        (fun _ _ => Except.error "down") (fun _ _ => Except.error "down") [] { text := "c" } =
      { claim := "c"
        status := .NOT_ENOUGH_INFO
        confidence := 1
        justification := "No evidence was found for this claim."
        evidence_used := [] } :=
  ⟨rfl,
   (C2_empty_evidence_verdict { confidence_threshold := 7/10 }
     (fun _ _ => Except.error "down") (fun _ _ => Except.error "down") [] { text := "c" }
     rfl).1⟩

/-- C3: the confidence-threshold post-processing of Stage 2.  When the
verdict capability returns a status other than NOT ENOUGH INFO with
confidence below the configured threshold, the persisted verdict is
downgraded to NOT ENOUGH INFO, keeps the original confidence, and its
justification records the original status and the original confidence;
otherwise status, confidence and justification are persisted unchanged. -/
theorem C3_confidence_downgrade_law
    (agent : VerificationAgent)
    (completeness_llm : String → String → Except String EvidenceCompletenessCheck)
    (verdict_llm : String → String → Except String VerdictOutput)
    (evidence_map : List (String × List Evidence)) (claim : Claim)
    (el : List Evidence) (cc : EvidenceCompletenessCheck) (vo : VerdictOutput)
    (hel : lookupEvidence evidence_map claim.text = el)
    (hne : el ≠ [])
    (hcomp : completeness_llm claim.text (evidenceText el) = .ok cc)
    (hcomplete : cc.is_complete = true)
    (hscore : ¬ (cc.completeness_score < 7/10))
    (hok : verdict_llm claim.text (evidenceText el) = .ok vo) :
    (vo.status ≠ .NOT_ENOUGH_INFO → vo.confidence < agent.confidence_threshold →
      verifyClaim agent completeness_llm verdict_llm evidence_map claim =
        { claim := claim.text
          status := .NOT_ENOUGH_INFO
          confidence := vo.confidence
          justification := "Low confidence (" ++ fmt2 vo.confidence ++ " < "
            ++ floatStr agent.confidence_threshold ++ "). Original: "
            ++ vo.status.str ++ ". " ++ vo.justification
          evidence_used := el.take 3 })
    ∧ (agent.confidence_threshold ≤ vo.confidence ∨ vo.status = .NOT_ENOUGH_INFO →
      verifyClaim agent completeness_llm verdict_llm evidence_map claim =
        { claim := claim.text
          status := vo.status
          confidence := vo.confidence
          justification := vo.justification
          evidence_used := el.take 3 }) := by
  have het := evidenceText_ne_empty hne
  have hgate : ¬ (¬ (cc.is_complete : Prop) ∨ cc.completeness_score < 7/10) := by
    simp [hcomplete, hscore]
  constructor
  · intro h1 h2
    simp only [verifyClaim, hel, if_neg het, hcomp, if_neg hgate,
      stage2Verdict, hok, if_pos (And.intro h1 h2)]
  · intro h
    have hcond : ¬ (vo.status ≠ .NOT_ENOUGH_INFO ∧
        vo.confidence < agent.confidence_threshold) := by
      rcases h with h | h
      · exact fun hc => absurd hc.2 (not_lt.mpr h)
      · exact fun hc => hc.1 h
    simp only [verifyClaim, hel, if_neg het, hcomp, if_neg hgate,
      stage2Verdict, hok, if_neg hcond]

theorem C3_confidence_downgrade_law_witness :
    ((1/2 : ℚ) < 7/10)
    ∧ verifyClaim { confidence_threshold := 7/10 }
        (fun _ _ => .ok { is_complete := true, completeness_score := 1, missing_elements := "" })
        (fun _ _ => .ok { status := .SUPPORTS, confidence := 1/2, justification := "j" })
        [("c", [{ source := "u", snippet := "s", relevance_score := 1 }])]
        { text := "c" } =
      { claim := "c"
        status := .NOT_ENOUGH_INFO
        confidence := 1/2
        justification := "Low confidence (" ++ fmt2 (1/2) ++ " < " ++ floatStr (7/10)
          ++ "). Original: " ++ Status.str .SUPPORTS ++ ". " ++ "j"
        evidence_used := [{ source := "u", snippet := "s", relevance_score := 1 }] } :=
  ⟨half_lt_seven_tenths,
   (C3_confidence_downgrade_law { confidence_threshold := 7/10 }
      (fun _ _ => .ok { is_complete := true, completeness_score := 1, missing_elements := "" })
      (fun _ _ => .ok { status := .SUPPORTS, confidence := 1/2, justification := "j" })
      [("c", [{ source := "u", snippet := "s", relevance_score := 1 }])]
      { text := "c" }
      [{ source := "u", snippet := "s", relevance_score := 1 }]
      { is_complete := true, completeness_score := 1, missing_elements := "" }
      { status := .SUPPORTS, confidence := 1/2, justification := "j" }
      (by simp [lookupEvidence]) (by simp) rfl rfl one_not_lt_seven_tenths rfl).1
     (by simp) half_lt_seven_tenths⟩

/-- C4: the completeness gate.  For a claim with non-empty evidence whose
completeness check returns is_complete false or completeness_score below
0.7, Stage 2 is never invoked (the result does not depend on the verdict
capability) and the verdict is NOT ENOUGH INFO with confidence equal to the
completeness score, a justification citing the missing elements, and
evidence_used capped to the top 3 items. -/
theorem C4_completeness_gate
    (agent : VerificationAgent)
    (completeness_llm : String → String → Except String EvidenceCompletenessCheck)
    (evidence_map : List (String × List Evidence)) (claim : Claim)
    (el : List Evidence) (cc : EvidenceCompletenessCheck)
    (hel : lookupEvidence evidence_map claim.text = el)
    (hne : el ≠ [])
    (hcomp : completeness_llm claim.text (evidenceText el) = .ok cc)
    (hgate : cc.is_complete = false ∨ cc.completeness_score < 7/10) :
    (∀ (verdict_llm verdict_llm2 : String → String → Except String VerdictOutput),
      verifyClaim agent completeness_llm verdict_llm evidence_map claim
        = verifyClaim agent completeness_llm verdict_llm2 evidence_map claim)
    ∧ ∀ (verdict_llm : String → String → Except String VerdictOutput),
        verifyClaim agent completeness_llm verdict_llm evidence_map claim =
          { claim := claim.text
            status := .NOT_ENOUGH_INFO
            confidence := cc.completeness_score
            justification := "Evidence is incomplete. Missing: " ++ cc.missing_elements
            evidence_used := el.take 3 } := by
  have het := evidenceText_ne_empty hne
  have hcond : (¬ (cc.is_complete : Prop) ∨ cc.completeness_score < 7/10) := by
    rcases hgate with h | h
    · exact Or.inl (by simp [h])
    · exact Or.inr h
  have hmain : ∀ (verdict_llm : String → String → Except String VerdictOutput),
      verifyClaim agent completeness_llm verdict_llm evidence_map claim =
        { claim := claim.text
          status := .NOT_ENOUGH_INFO
          confidence := cc.completeness_score
          justification := "Evidence is incomplete. Missing: " ++ cc.missing_elements
          evidence_used := el.take 3 } := by
    intro verdict_llm
    simp only [verifyClaim, hel, if_neg het, hcomp, if_pos hcond]
  exact ⟨fun v1 v2 => (hmain v1).trans (hmain v2).symm, hmain⟩

theorem C4_completeness_gate_witness :
    lookupEvidence [("c", [{ source := "u", snippet := "s", relevance_score := 1 }])] "c"
      = [{ source := "u", snippet := "s", relevance_score := 1 }]
    ∧ verifyClaim { confidence_threshold := 7/10 }
        (fun _ _ => .ok { is_complete := false, completeness_score := 1, missing_elements := "m" })
        (fun _ _ => .error "never called")
        [("c", [{ source := "u", snippet := "s", relevance_score := 1 }])]
        { text := "c" } =
      { claim := "c"
        status := .NOT_ENOUGH_INFO
        confidence := 1
        justification := "Evidence is incomplete. Missing: " ++ "m"
        evidence_used := [{ source := "u", snippet := "s", relevance_score := 1 }] } :=
  ⟨by simp [lookupEvidence],
   (C4_completeness_gate { confidence_threshold := 7/10 }
      (fun _ _ => .ok { is_complete := false, completeness_score := 1, missing_elements := "m" })
      [("c", [{ source := "u", snippet := "s", relevance_score := 1 }])]
      { text := "c" }
      [{ source := "u", snippet := "s", relevance_score := 1 }]
      { is_complete := false, completeness_score := 1, missing_elements := "m" }
      (by simp [lookupEvidence]) (by simp) rfl (Or.inl rfl)).2
     (fun _ _ => .error "never called")⟩

/-- C5: Stage-1 fail-open.  For a claim with non-empty evidence whose
completeness invocation raises, the verifier neither short-circuits nor
aborts: the claim's verdict is exactly the Stage-2 result, the same
verdict produced when the gate passes. -/
theorem C5_stage1_fail_open
    (agent : VerificationAgent)
    (completeness_llm : String → String → Except String EvidenceCompletenessCheck)
    (verdict_llm : String → String → Except String VerdictOutput)
    (evidence_map : List (String × List Evidence)) (claim : Claim)
    (el : List Evidence) (e : String)
    (hel : lookupEvidence evidence_map claim.text = el)
    (hne : el ≠ [])
    (herr : completeness_llm claim.text (evidenceText el) = .error e) :
    verifyClaim agent completeness_llm verdict_llm evidence_map claim
      = stage2Verdict agent verdict_llm claim.text (evidenceText el) el
    ∧ ∀ cc : EvidenceCompletenessCheck, cc.is_complete = true →
        ¬ (cc.completeness_score < 7/10) →
        verifyClaim agent (fun _ _ => .ok cc) verdict_llm evidence_map claim
          = verifyClaim agent completeness_llm verdict_llm evidence_map claim := by
  have het := evidenceText_ne_empty hne
  have hmain : verifyClaim agent completeness_llm verdict_llm evidence_map claim
      = stage2Verdict agent verdict_llm claim.text (evidenceText el) el := by
    simp only [verifyClaim, hel, if_neg het, herr]
  refine ⟨hmain, ?_⟩
  intro cc hcomplete hscore
  have hgate : ¬ (¬ (cc.is_complete : Prop) ∨ cc.completeness_score < 7/10) := by
    simp [hcomplete, hscore]
  rw [hmain]
  simp only [verifyClaim, hel, if_neg het, if_neg hgate]

theorem C5_stage1_fail_open_witness :
    lookupEvidence [("c", [{ source := "u", snippet := "s", relevance_score := 1 }])] "c"
      = [{ source := "u", snippet := "s", relevance_score := 1 }]
    ∧ verifyClaim { confidence_threshold := 7/10 }
        (fun _ _ => .error "boom")
        (fun _ _ => .ok { status := .SUPPORTS, confidence := 1, justification := "j" })
        [("c", [{ source := "u", snippet := "s", relevance_score := 1 }])]
        { text := "c" } =
      stage2Verdict { confidence_threshold := 7/10 }
        (fun _ _ => .ok { status := .SUPPORTS, confidence := 1, justification := "j" })
        "c" (evidenceText [{ source := "u", snippet := "s", relevance_score := 1 }])
        [{ source := "u", snippet := "s", relevance_score := 1 }] :=
  ⟨by simp [lookupEvidence],
   (C5_stage1_fail_open { confidence_threshold := 7/10 }
      (fun _ _ => .error "boom")
      (fun _ _ => .ok { status := .SUPPORTS, confidence := 1, justification := "j" })
      [("c", [{ source := "u", snippet := "s", relevance_score := 1 }])]
      { text := "c" }
      [{ source := "u", snippet := "s", relevance_score := 1 }] "boom"
      (by simp [lookupEvidence]) (by simp) rfl).1⟩

/-- C6: on a successful extraction call the stored claims are the extracted
claims stably sorted by priority descending: the stored list is a
permutation of the extraction output, pairwise descending in priority, and
for every priority value the claims carrying it keep their original
extraction order. -/
theorem C6_claims_sorted_stably
    (structured_llm : String → Except String ClaimsList)
    (state : FactCheckState) (result : ClaimsList)
    (hok : structured_llm state.input_text = .ok result) :
    (ClaimExtractionAgent.extract_claims structured_llm state).claims
      = sortClaimsDesc result.claims
    ∧ ((ClaimExtractionAgent.extract_claims structured_llm state).claims).Pairwise
        (fun x y => y.priority ≤ x.priority)
    ∧ List.Perm ((ClaimExtractionAgent.extract_claims structured_llm state).claims)
        result.claims
    ∧ ∀ p : Int,
        ((ClaimExtractionAgent.extract_claims structured_llm state).claims).filter
            (fun c => c.priority == p)
          = result.claims.filter (fun c => c.priority == p) := by
  have hc : (ClaimExtractionAgent.extract_claims structured_llm state).claims
      = sortClaimsDesc result.claims := by
    simp [ClaimExtractionAgent.extract_claims, hok]
  refine ⟨hc, ?_, ?_, ?_⟩
  · rw [hc]; exact sortClaimsDesc_sorted result.claims
  · rw [hc]; exact sortClaimsDesc_perm result.claims
  · intro p; rw [hc]; exact sortClaimsDesc_stable result.claims p

set_option maxRecDepth 2000 in
theorem C6_claims_sorted_stably_witness :
    (fun _ : String => (Except.ok (ClaimsList.mk
        [{ text := "a", priority := 3 }, { text := "b", priority := 7 },
         { text := "c", priority := 3 }]) : Except String ClaimsList)) "t"
      = .ok (ClaimsList.mk
        [{ text := "a", priority := 3 }, { text := "b", priority := 7 },
         { text := "c", priority := 3 }])
    ∧ (ClaimExtractionAgent.extract_claims
        (fun _ : String => (Except.ok (ClaimsList.mk
          [{ text := "a", priority := 3 }, { text := "b", priority := 7 },
           { text := "c", priority := 3 }]) : Except String ClaimsList))
        { input_text := "t" }).claims
      = sortClaimsDesc
          [{ text := "a", priority := 3 }, { text := "b", priority := 7 },
           { text := "c", priority := 3 }]
    ∧ sortClaimsDesc
        [{ text := "a", priority := 3 }, { text := "b", priority := 7 },
         { text := "c", priority := 3 }]
      = [{ text := "b", priority := 7 }, { text := "a", priority := 3 },
         { text := "c", priority := 3 }] :=
  ⟨rfl,
   (C6_claims_sorted_stably
      (fun _ : String => (Except.ok (ClaimsList.mk
        [{ text := "a", priority := 3 }, { text := "b", priority := 7 },
         { text := "c", priority := 3 }]) : Except String ClaimsList))
      { input_text := "t" }
      (ClaimsList.mk
        [{ text := "a", priority := 3 }, { text := "b", priority := 7 },
         { text := "c", priority := 3 }])
      rfl).1,
   by decide⟩

/-- C7: every search result returned by a successful provider call yields
exactly one Evidence, appearing in the collected evidence as the contiguous
block `rs.map resultToEvidence`; the constructed Evidence has snippet equal
to the result content truncated to 500 characters (hence of length at most
500) and relevance score equal to the provider score, defaulting to 0.5
when the score field is absent. -/
theorem C7_one_evidence_per_result
    (search : String → Except String (List SearchResult))
    (queries : List String) (query : String) (rs : List SearchResult)
    (hq : query ∈ queries.take 2)
    (hok : search query = .ok rs) :
    (∃ pre post, searchEvidenceForClaim search queries
      = pre ++ rs.map resultToEvidence ++ post)
    ∧ ∀ r : SearchResult,
        resultToEvidence r =
          { source := r.url.getD ""
            snippet := (r.content.getD "").take 500
            relevance_score := r.score.getD (1/2) }
        ∧ ((r.content.getD "").take 500).length ≤ 500
        ∧ (r.score = none → (resultToEvidence r).relevance_score = 1/2) := by
  constructor
  · obtain ⟨s, t, hst⟩ := List.append_of_mem hq
    refine ⟨((s.map (fun q => match search q with
        | .ok search_results => search_results.map resultToEvidence
        | .error _ => [])).flatten),
      ((t.map (fun q => match search q with
        | .ok search_results => search_results.map resultToEvidence
        | .error _ => [])).flatten), ?_⟩
    simp only [searchEvidenceForClaim, hst, List.map_append, List.map_cons,
      List.flatten_append, List.flatten_cons, hok, List.append_assoc]
  · intro r
    have h1 : resultToEvidence r =
        { source := r.url.getD ""
          snippet := (r.content.getD "").take 500
          relevance_score := r.score.getD (1/2) } := by
      simp only [resultToEvidence]
    refine ⟨h1, ?_, ?_⟩
    · rw [String.take_eq, ← String.length_data]
      show ((r.content.getD "").data.take 500).length ≤ 500
      rw [List.length_take]
      exact min_le_left _ _
    · intro hnone
      rw [h1]
      simp [hnone]

theorem C7_one_evidence_per_result_witness :
    ("q" ∈ (["q"] : List String).take 2)
    ∧ ((fun _ : String => (Except.ok [(⟨some "u", some "abc", none⟩ : SearchResult)]
          : Except String (List SearchResult))) "q"
        = .ok [(⟨some "u", some "abc", none⟩ : SearchResult)])
    ∧ (∃ pre post,
        searchEvidenceForClaim
          (fun _ : String => (Except.ok [(⟨some "u", some "abc", none⟩ : SearchResult)]
            : Except String (List SearchResult)))
          ["q"]
        = pre ++ [(⟨some "u", some "abc", none⟩ : SearchResult)].map resultToEvidence
            ++ post) :=
  ⟨by decide, rfl,
   (C7_one_evidence_per_result
      (fun _ : String => (Except.ok [(⟨some "u", some "abc", none⟩ : SearchResult)]
        : Except String (List SearchResult)))
      ["q"] "q" [(⟨some "u", some "abc", none⟩ : SearchResult)]
      (by decide) rfl).1⟩

/-- C8 (code bug): `_save_report_to_markdown` looks the verdict status up in
an emoji table keyed by "supported", "refuted", "mixed" and
"not_enough_info", but every `Verdict.status` is one of the FEVER literals
"SUPPORTS", "REFUTES", "NOT ENOUGH INFO", so the lookup always falls
through to the default bullet: the rendered emoji is the same for all three
statuses instead of a distinct emoji per status. -/
theorem C8_emoji_always_fallback :
    (∀ s : Status, statusEmoji s.str = "•")
    ∧ statusEmoji (Status.str .SUPPORTS) = statusEmoji (Status.str .REFUTES) := by
  constructor
  · intro s; cases s <;> rfl
  · rfl

/-- C9: agents.py imports the name EvidenceCompletenessCheck from
groundcrew.models, but groundcrew.models defines no such class, so
resolving the import raises ImportError before any agent can be
constructed. -/
theorem C9_missing_completeness_class :
    "EvidenceCompletenessCheck" ∈ agentsModelsImportList
    ∧ "EvidenceCompletenessCheck" ∉ modelsDefinedClasses
    ∧ fromImport modelsDefinedClasses agentsModelsImportList
        = .error ("ImportError: cannot import name " ++ "EvidenceCompletenessCheck") := by
  refine ⟨by decide, by decide, ?_⟩
  simp [fromImport, modelsDefinedClasses, agentsModelsImportList]

/-- C10: `run_fact_check` has no search_domain parameter and the workflow
constructs the search agent without a domain filter, yet both the CLI path
of main.py and the NEI evaluation harness pass a search_domain keyword to
`run_fact_check`; each such call raises TypeError. -/
theorem C10_search_domain_type_error :
    "search_domain" ∉ runFactCheckParams
    ∧ "search_domain" ∈ mainRunFactCheckKwargs
    ∧ "search_domain" ∈ evalRunFactCheckKwargs
    ∧ kwargsCallRaisesTypeError runFactCheckParams mainRunFactCheckKwargs = true
    ∧ kwargsCallRaisesTypeError runFactCheckParams evalRunFactCheckKwargs = true
    ∧ createWorkflowSearchAgentDomain = none := by
  refine ⟨by decide, by decide, by decide, by decide, by decide, rfl⟩

end GroundCrew
